import Mathlib

/-!
Verification of the signal-fusion and indicator-evaluation core of the
financial-analysis service (technical_indicators.py, semantic_analyzer.py,
ai_verdict_system.py).  Python floats are modelled as rationals; the
population standard deviation (numpy std) is modelled as the real square
root of the rational population variance.
-/

namespace FinSaaS

/-- Trading signal enumeration (class Signal in technical_indicators.py). -/
inductive Signal
  | BUY
  | SELL
  | HOLD
  deriving DecidableEq, Repr

/-- Container for individual indicator results (dataclass IndicatorResult in
technical_indicators.py).  Field defaults mirror the dataclass defaults. -/
structure IndicatorResult where
  name : String
  signal : Signal
  value : ℚ
  reference_value : Option ℚ := none
  confidence : ℚ := 0
  description : String := ""
  deriving DecidableEq, Repr

/-- Constructor parameters of TechnicalIndicators.__init__ with their
default values. -/
structure Config where
  ema_period : ℕ := 20
  macd_fast : ℕ := 12
  macd_slow : ℕ := 26
  macd_signal : ℕ := 9
  rsi_period : ℕ := 14
  rsi_oversold : ℚ := 30
  rsi_overbought : ℚ := 70
  deriving DecidableEq, Repr

/-- The default TechnicalIndicators configuration. -/
def defaultConfig : Config := {}

/-- Arithmetic mean of a list of rationals (numpy mean; the rational
convention 0 / 0 = 0 gives 0 on the empty list, which the code never hits
because every caller guards emptiness first). -/
def npMean (xs : List ℚ) : ℚ := xs.sum / xs.length

/-- One step of exponential smoothing with factor k:
prev + k * (x - prev). -/
def emaStep (k : ℚ) (prev x : ℚ) : ℚ := prev + k * (x - prev)

/-- TA-Lib exponential smoothing factor 2 / (period + 1). -/
def emaK (p : ℕ) : ℚ := 2 / ((p : ℚ) + 1)

/-- Modelled from the spec: the trend indicator is an "exponentially
weighted moving average over a configurable lookback" (spec section 4.1);
the external TA-Lib routine talib.EMA (not part of this repository) seeds
the average with the simple mean of the first p points and then applies
exponential smoothing with factor 2/(p+1).  This is the final EMA value,
ema_values[-1] in the Python code. -/
def emaLastVal (p : ℕ) (xs : List ℚ) : ℚ :=
  (xs.drop p).foldl (emaStep (emaK p)) (npMean (xs.take p))

/-- Modelled from the spec: the full EMA value sequence of talib.EMA (the
values at source indices p-1 .. n-1), needed to feed the MACD signal line. -/
def emaSeq (p : ℕ) (xs : List ℚ) : List ℚ :=
  List.scanl (emaStep (emaK p)) (npMean (xs.take p)) (xs.drop p)

/-- Modelled from the spec: the MACD main line is "fast EMA − slow EMA"
(spec section 4.1), aligned so that both EMAs are evaluated at the same
source index; the sequence starts at source index macd_slow - 1. -/
def macdSeries (cfg : Config) (xs : List ℚ) : List ℚ :=
  List.zipWith (fun a b => a - b)
    ((emaSeq cfg.macd_fast xs).drop (cfg.macd_slow - cfg.macd_fast))
    (emaSeq cfg.macd_slow xs)

/-- Last value of the MACD main line, macd_line[-1] in the Python code. -/
def macdLast (cfg : Config) (xs : List ℚ) : ℚ := (macdSeries cfg xs).getLastD 0

/-- Last value of the MACD signal line: the final value of the signal-period
EMA of the main line, macd_signal_line[-1] in the Python code. -/
def macdSignalLast (cfg : Config) (xs : List ℚ) : ℚ :=
  emaLastVal cfg.macd_signal (macdSeries cfg xs)

/-- Last value of the MACD histogram.  TA-Lib's histogram is the pointwise
difference main − signal, so its last value is macd_line[-1] minus
macd_signal_line[-1]. -/
def macdHistLast (cfg : Config) (xs : List ℚ) : ℚ :=
  macdLast cfg xs - macdSignalLast cfg xs

/-- One step of Wilder smoothing with period p:
(avg * (p - 1) + x) / p. -/
def wilderStep (p : ℕ) (avg x : ℚ) : ℚ := (avg * ((p : ℚ) - 1) + x) / (p : ℚ)

/-- Successive price differences xs[i+1] - xs[i]. -/
def priceDiffs (xs : List ℚ) : List ℚ :=
  List.zipWith (fun a b => a - b) xs.tail xs

/-- Modelled from the spec: the momentum oscillator is a "bounded [0,100]
oscillator ... using Wilder-style smoothed average gain/loss" (spec section
4.1); the external TA-Lib routine talib.RSI (not part of this repository)
averages the first p gains and losses, continues with Wilder smoothing, and
returns 100 * avgGain / (avgGain + avgLoss), or 0 when that denominator is
zero.  This is the final RSI value, rsi_values[-1] in the Python code. -/
def rsiLast (p : ℕ) (xs : List ℚ) : ℚ :=
  let gains := (priceDiffs xs).map (fun d => max d 0)
  let losses := (priceDiffs xs).map (fun d => max (-d) 0)
  let avgGain := (gains.drop p).foldl (wilderStep p) ((gains.take p).sum / (p : ℚ))
  let avgLoss := (losses.drop p).foldl (wilderStep p) ((losses.take p).sum / (p : ℚ))
  if avgGain + avgLoss = 0 then 0 else 100 * (avgGain / (avgGain + avgLoss))

/-- TechnicalIndicators.calculate_ema, the IndicatorResult component (the
Python function also returns the raw EMA array, which no claim uses).  The
numeric interpolations inside the three non-error description strings are
elided; the insufficient-data description is modelled exactly. -/
def calculate_ema (cfg : Config) (xs : List ℚ) : IndicatorResult :=
  if xs.length < cfg.ema_period then
    { name := "EMA", signal := Signal.HOLD, value := 0,
      description := "Insufficient data for EMA (" ++ toString xs.length ++
        " < " ++ toString cfg.ema_period ++ ")" }
  else
    let current_price := xs.getLastD 0
    let current_ema := emaLastVal cfg.ema_period xs
    if current_ema < current_price then
      { name := "EMA", signal := Signal.BUY, value := current_ema,
        reference_value := some current_price,
        confidence := min ((current_price - current_ema) / current_ema * 100) 100,
        description := "Price above EMA" }
    else if current_price < current_ema then
      { name := "EMA", signal := Signal.SELL, value := current_ema,
        reference_value := some current_price,
        confidence := min ((current_ema - current_price) / current_ema * 100) 100,
        description := "Price below EMA" }
    else
      { name := "EMA", signal := Signal.HOLD, value := current_ema,
        reference_value := some current_price, confidence := 0,
        description := "Price at EMA" }

/-- TechnicalIndicators.calculate_macd, the IndicatorResult component (the
Python function also returns the raw MACD arrays, which no claim uses).
The numeric interpolations inside the three non-error description strings
are elided; the insufficient-data description is modelled exactly. -/
def calculate_macd (cfg : Config) (xs : List ℚ) : IndicatorResult :=
  let min_required := cfg.macd_slow + cfg.macd_signal
  if xs.length < min_required then
    { name := "MACD", signal := Signal.HOLD, value := 0,
      description := "Insufficient data for MACD (" ++ toString xs.length ++
        " < " ++ toString min_required ++ ")" }
  else
    let current_macd := macdLast cfg xs
    let current_signal := macdSignalLast cfg xs
    let current_histogram := macdHistLast cfg xs
    if current_signal < current_macd ∧ 0 < current_histogram then
      { name := "MACD", signal := Signal.BUY, value := current_macd,
        reference_value := some current_signal,
        confidence := min (|current_histogram| * 1000) 100,
        description := "MACD above Signal" }
    else if current_macd < current_signal ∧ current_histogram < 0 then
      { name := "MACD", signal := Signal.SELL, value := current_macd,
        reference_value := some current_signal,
        confidence := min (|current_histogram| * 1000) 100,
        description := "MACD below Signal" }
    else
      { name := "MACD", signal := Signal.HOLD, value := current_macd,
        reference_value := some current_signal, confidence := 0,
        description := "MACD near Signal" }

/-- TechnicalIndicators.calculate_rsi, the IndicatorResult component (the
Python function also returns the raw RSI array, which no claim uses).  The
branch computes (signal, raw confidence, description) and the final result
applies min(confidence, 100) exactly as the Python constructor call does.
The numeric interpolations inside the three non-error description strings
are elided; the insufficient-data description is modelled exactly. -/
def calculate_rsi (cfg : Config) (xs : List ℚ) : IndicatorResult :=
  if xs.length < cfg.rsi_period + 1 then
    { name := "RSI", signal := Signal.HOLD, value := 0,
      description := "Insufficient data for RSI (" ++ toString xs.length ++
        " < " ++ toString (cfg.rsi_period + 1) ++ ")" }
  else
    let current_rsi := rsiLast cfg.rsi_period xs
    let branch : Signal × ℚ × String :=
      if current_rsi < cfg.rsi_oversold then
        (Signal.BUY, (cfg.rsi_oversold - current_rsi) / cfg.rsi_oversold * 100,
          "RSI oversold")
      else if cfg.rsi_overbought < current_rsi then
        (Signal.SELL,
          (current_rsi - cfg.rsi_overbought) / (100 - cfg.rsi_overbought) * 100,
          "RSI overbought")
      else
        (Signal.HOLD, 0, "RSI in neutral zone")
    { name := "RSI", signal := branch.1, value := current_rsi,
      confidence := min branch.2.1 100, description := branch.2.2 }

/-- TechnicalIndicators._combine_signals: merge individual indicator
signals into an overall (signal, confidence, recommendation) triple. -/
def _combine_signals (indicators : List IndicatorResult) : Signal × ℚ × String :=
  let buy_signals := (indicators.filter (fun i => decide (i.signal = Signal.BUY))).length
  let sell_signals := (indicators.filter (fun i => decide (i.signal = Signal.SELL))).length
  let total_indicators := indicators.length
  let valid_signals := buy_signals + sell_signals
  if valid_signals = 0 then
    (Signal.HOLD, 0, "No clear signals from indicators")
  else
    let total_confidence :=
      ((indicators.filter (fun i => decide (¬ i.signal = Signal.HOLD))).map
        IndicatorResult.confidence).sum
    let avg_confidence := total_confidence / (valid_signals : ℚ)
    if sell_signals < buy_signals then
      (Signal.BUY,
        min (avg_confidence * ((buy_signals : ℚ) / (total_indicators : ℚ))) 100,
        "BUY - " ++ toString buy_signals ++ "/" ++ toString total_indicators ++
          " indicators bullish")
    else if buy_signals < sell_signals then
      (Signal.SELL,
        min (avg_confidence * ((sell_signals : ℚ) / (total_indicators : ℚ))) 100,
        "SELL - " ++ toString sell_signals ++ "/" ++ toString total_indicators ++
          " indicators bearish")
    else
      (Signal.HOLD, min (avg_confidence * (1 / 2)) 100,
        "HOLD - Mixed signals (" ++ toString buy_signals ++ " buy, " ++
          toString sell_signals ++ " sell)")

/-- The signal-combiner algorithm exactly as the specification words it
(spec section 4.2): count BUY votes b and SELL votes s among the N
indicators; if b and s are both zero return the no-clear-signals result;
otherwise the average confidence is taken over only the non-HOLD
indicators, the majority rule picks the overall signal and strength
(b/N, s/N, or 0.5 on a tie), and the final confidence is that average
times the strength, capped at 100. -/
def combineSignalsSpec (indicators : List IndicatorResult) : Signal × ℚ × String :=
  let b := (indicators.filter (fun i => decide (i.signal = Signal.BUY))).length
  let s := (indicators.filter (fun i => decide (i.signal = Signal.SELL))).length
  let n := indicators.length
  if b = 0 ∧ s = 0 then
    (Signal.HOLD, 0, "No clear signals from indicators")
  else
    let nonHold := indicators.filter (fun i => decide (¬ i.signal = Signal.HOLD))
    let avg := (nonHold.map IndicatorResult.confidence).sum / (nonHold.length : ℚ)
    if s < b then
      (Signal.BUY, min (avg * ((b : ℚ) / (n : ℚ))) 100,
        "BUY - " ++ toString b ++ "/" ++ toString n ++ " indicators bullish")
    else if b < s then
      (Signal.SELL, min (avg * ((s : ℚ) / (n : ℚ))) 100,
        "SELL - " ++ toString s ++ "/" ++ toString n ++ " indicators bearish")
    else
      (Signal.HOLD, min (avg * (1 / 2)) 100,
        "HOLD - Mixed signals (" ++ toString b ++ " buy, " ++ toString s ++ " sell)")

/-- Per-document sentiment classification label.  The Python code receives
the label as a lowercased string from the FinBERT classifier and counts
documents by indexing a dictionary whose only keys are "positive",
"negative" and "neutral" (any other label would raise a KeyError), so the
label space is exactly this closed variant. -/
inductive SentLabel
  | positive
  | negative
  | neutral
  deriving DecidableEq, Repr

/-- One element of the list produced by
FinancialSemanticAnalyzer.analyze_sentiment_batch: the per-document
sentiment dictionary consumed by calculate_sentiment_scores. -/
structure SentimentResult where
  sentiment : SentLabel
  confidence : ℚ
  positive_score : ℚ
  negative_score : ℚ
  neutral_score : ℚ
  weighted_sentiment : ℚ
  deriving DecidableEq, Repr

/-- The aggregate dictionary returned by
FinancialSemanticAnalyzer.calculate_sentiment_scores.  Every field is a
Python float; sentiment_momentum is numpy std, hence a real number here. -/
@[ext]
structure SentimentAggregate where
  overall_sentiment : ℚ
  weighted_sentiment_avg : ℚ
  positive_ratio : ℚ
  negative_ratio : ℚ
  neutral_ratio : ℚ
  average_confidence : ℚ
  sentiment_momentum : ℝ
  avg_positive_score : ℚ
  avg_negative_score : ℚ
  avg_neutral_score : ℚ

/-- Population variance of a list (numpy var); numpy std is its square
root. -/
def npVar (xs : List ℚ) : ℚ :=
  (xs.map (fun x => (x - npMean xs) ^ 2)).sum / xs.length

/-- Population standard deviation of a list (numpy std). -/
noncomputable def npStd (xs : List ℚ) : ℝ := Real.sqrt (npVar xs)

/-- The signed confidence used for overall_sentiment: +confidence for a
positive document, -confidence for a negative one, 0 for neutral. -/
def signedConfidence (r : SentimentResult) : ℚ :=
  match r.sentiment with
  | SentLabel.positive => r.confidence
  | SentLabel.negative => -r.confidence
  | SentLabel.neutral => 0

/-- FinancialSemanticAnalyzer.calculate_sentiment_scores: aggregate a batch
of per-document sentiment results.  The empty batch returns the hard-coded
all-zero dictionary of the Python code; otherwise every field is a mean,
a label-count ratio, or the standard deviation of the weighted scores. -/
noncomputable def calculate_sentiment_scores (rs : List SentimentResult) :
    SentimentAggregate :=
  if rs = [] then
    { overall_sentiment := 0, weighted_sentiment_avg := 0, positive_ratio := 0,
      negative_ratio := 0, neutral_ratio := 0, average_confidence := 0,
      sentiment_momentum := 0, avg_positive_score := 0, avg_negative_score := 0,
      avg_neutral_score := 0 }
  else
    let weighted_sentiments := rs.map SentimentResult.weighted_sentiment
    let total_count : ℚ := rs.length
    { overall_sentiment := npMean (rs.map signedConfidence),
      weighted_sentiment_avg := npMean weighted_sentiments,
      positive_ratio :=
        ((rs.filter (fun r => decide (r.sentiment = SentLabel.positive))).length : ℚ) /
          total_count,
      negative_ratio :=
        ((rs.filter (fun r => decide (r.sentiment = SentLabel.negative))).length : ℚ) /
          total_count,
      neutral_ratio :=
        ((rs.filter (fun r => decide (r.sentiment = SentLabel.neutral))).length : ℚ) /
          total_count,
      average_confidence := npMean (rs.map SentimentResult.confidence),
      sentiment_momentum := npStd weighted_sentiments,
      avg_positive_score := npMean (rs.map SentimentResult.positive_score),
      avg_negative_score := npMean (rs.map SentimentResult.negative_score),
      avg_neutral_score := npMean (rs.map SentimentResult.neutral_score) }

/-- The input frame of clean_data_for_downstream: a pandas DataFrame of
aggregate rows, modelled column-wise.  A column that is absent from the
frame is None; a present column holds one value per row.  The string-typed
symbol column of the Python frame is omitted because no derivation reads
it. -/
structure SemFrame where
  nrows : ℕ
  overall_sentiment : Option (List ℚ) := none
  weighted_sentiment_avg : Option (List ℚ) := none
  positive_ratio : Option (List ℚ) := none
  negative_ratio : Option (List ℚ) := none
  average_confidence : Option (List ℚ) := none
  deriving DecidableEq, Repr

/-- The output frame of clean_data_for_downstream: every required column is
present (missing ones were synthesized) and the two derived columns have
been added. -/
structure CleanedFrame where
  overall_sentiment : List ℚ
  weighted_sentiment_avg : List ℚ
  positive_ratio : List ℚ
  negative_ratio : List ℚ
  average_confidence : List ℚ
  sentiment_signal : List ℤ
  confidence_normalized : List ℚ
  deriving DecidableEq, Repr

/-- Synthesize a missing required column as the all-zero column
(semantic_results[col] = 0.0 broadcasts the scalar over the rows). -/
def fillCol (n : ℕ) (c : Option (List ℚ)) : List ℚ :=
  c.getD (List.replicate n 0)

/-- Maximum of a column (pandas Series.max); the empty-column value is
irrelevant to the claims, which concern batches of at least one row. -/
def colMax : List ℚ → ℚ
  | [] => 0
  | x :: t => t.foldl max x

/-- clean_data_for_downstream in semantic_analyzer.py: synthesize missing
required columns as 0.0, derive sentiment_signal by thresholding
weighted_sentiment_avg at plus/minus 0.1, and derive confidence_normalized
by dividing by the column maximum when that maximum is positive and
broadcasting the scalar 0.0 otherwise. -/
def clean_data_for_downstream (f : SemFrame) : CleanedFrame :=
  let wsa := fillCol f.nrows f.weighted_sentiment_avg
  let conf := fillCol f.nrows f.average_confidence
  let m := colMax conf
  { overall_sentiment := fillCol f.nrows f.overall_sentiment,
    weighted_sentiment_avg := wsa,
    positive_ratio := fillCol f.nrows f.positive_ratio,
    negative_ratio := fillCol f.nrows f.negative_ratio,
    average_confidence := conf,
    sentiment_signal :=
      wsa.map (fun w => if (1 : ℚ) / 10 < w then 1 else if w < -(1 / 10) then -1 else 0),
    confidence_normalized :=
      if 0 < m then conf.map (fun c => c / m) else List.replicate f.nrows 0 }

/-- The analyst-rating tier of AIVerdictSystem.format_for_frontend: the
overall signal arrives as a string from the technical record and the rating
is chosen by the confidence-thresholded cascade of the Python code. -/
def analystRating (overall_signal : String) (overall_confidence : ℚ) : String :=
  if overall_signal = "BUY" ∧ 70 < overall_confidence then "Strong Buy"
  else if overall_signal = "BUY" then "Buy"
  else if overall_signal = "SELL" ∧ 70 < overall_confidence then "Strong Sell"
  else if overall_signal = "SELL" then "Sell"
  else "Hold"

/-! ## Theorems -/

/-- C9: for every technical record, the analyst rating is "Strong Buy" iff
the overall signal is BUY and the overall confidence is above 70, "Buy" iff
BUY with confidence at most 70, "Strong Sell" iff SELL with confidence
above 70, "Sell" iff SELL with confidence at most 70, and "Hold" exactly
when the signal is neither BUY nor SELL. -/
theorem analystRating_tiers (sig : String) (conf : ℚ) :
    (analystRating sig conf = "Strong Buy" ↔ sig = "BUY" ∧ 70 < conf) ∧
    (analystRating sig conf = "Buy" ↔ sig = "BUY" ∧ conf ≤ 70) ∧
    (analystRating sig conf = "Strong Sell" ↔ sig = "SELL" ∧ 70 < conf) ∧
    (analystRating sig conf = "Sell" ↔ sig = "SELL" ∧ conf ≤ 70) ∧
    (analystRating sig conf = "Hold" ↔ ¬ sig = "BUY" ∧ ¬ sig = "SELL") := by
  unfold analystRating
  split_ifs with h1 h2 h3 h4 <;>
    refine ⟨?_, ?_, ?_, ?_, ?_⟩ <;>
    simp_all [not_lt]

/-- C4 counterexample: on the empty document list,
calculate_sentiment_scores returns neutral_ratio 0.0, not 1.0 (the Python
code's empty-input branch hard-codes 0.0 for every field, and its unit test
test_calculate_sentiment_scores_empty_input asserts exactly that). -/
theorem sentiment_scores_nil_neutral_ratio_ne_one :
    (calculate_sentiment_scores []).neutral_ratio ≠ 1 := by
  simp [calculate_sentiment_scores]

/-- C4 (amended): sentiment aggregation over the empty document list
returns the aggregate in which every field, including neutral_ratio, is
0.0, and does not raise an error (the function is total). -/
theorem sentiment_scores_nil :
    calculate_sentiment_scores [] =
      { overall_sentiment := 0, weighted_sentiment_avg := 0, positive_ratio := 0,
        negative_ratio := 0, neutral_ratio := 0, average_confidence := 0,
        sentiment_momentum := 0, avg_positive_score := 0, avg_negative_score := 0,
        avg_neutral_score := 0 } := by
  simp [calculate_sentiment_scores]

/-- C3: each indicator, fed a close-price list shorter than its own
minimum length, returns the HOLD result with confidence 0 and the
insufficient-data description, and never raises (the functions are total
on all inputs). -/
theorem insufficient_data_results (cfg : Config) (xs : List ℚ) :
    (xs.length < cfg.ema_period →
      calculate_ema cfg xs =
        { name := "EMA", signal := Signal.HOLD, value := 0,
          reference_value := none, confidence := 0,
          description := "Insufficient data for EMA (" ++ toString xs.length ++
            " < " ++ toString cfg.ema_period ++ ")" }) ∧
    (xs.length < cfg.macd_slow + cfg.macd_signal →
      calculate_macd cfg xs =
        { name := "MACD", signal := Signal.HOLD, value := 0,
          reference_value := none, confidence := 0,
          description := "Insufficient data for MACD (" ++ toString xs.length ++
            " < " ++ toString (cfg.macd_slow + cfg.macd_signal) ++ ")" }) ∧
    (xs.length < cfg.rsi_period + 1 →
      calculate_rsi cfg xs =
        { name := "RSI", signal := Signal.HOLD, value := 0,
          reference_value := none, confidence := 0,
          description := "Insufficient data for RSI (" ++ toString xs.length ++
            " < " ++ toString (cfg.rsi_period + 1) ++ ")" }) := by
  refine ⟨fun h => ?_, fun h => ?_, fun h => ?_⟩
  · unfold calculate_ema
    rw [if_pos h]
  · unfold calculate_macd
    rw [if_pos h]
  · unfold calculate_rsi
    rw [if_pos h]

/-- Witness for C3 at the default configuration and the empty price
list. -/
theorem insufficient_data_results_witness :
    ([] : List ℚ).length < defaultConfig.ema_period ∧
      calculate_ema defaultConfig [] =
        { name := "EMA", signal := Signal.HOLD, value := 0,
          reference_value := none, confidence := 0,
          description := "Insufficient data for EMA (0 < 20)" } ∧
      calculate_macd defaultConfig [] =
        { name := "MACD", signal := Signal.HOLD, value := 0,
          reference_value := none, confidence := 0,
          description := "Insufficient data for MACD (0 < 35)" } ∧
      calculate_rsi defaultConfig [] =
        { name := "RSI", signal := Signal.HOLD, value := 0,
          reference_value := none, confidence := 0,
          description := "Insufficient data for RSI (0 < 15)" } :=
  ⟨by decide,
   (insufficient_data_results defaultConfig []).1 (by decide),
   (insufficient_data_results defaultConfig []).2.1 (by decide),
   (insufficient_data_results defaultConfig []).2.2 (by decide)⟩

/-- C7 counterexample: the combiner does not clamp its output into [0,100]
for every input list; a single BUY indicator carrying a negative
confidence yields a negative overall confidence. -/
theorem combine_signals_negative_confidence :
    (_combine_signals
        [{ name := "EMA", signal := Signal.BUY, value := 0,
           confidence := -50 }]).2.1 < 0 := by
  have hBS : (Signal.BUY = Signal.SELL) = False := by simp
  have hBH : (Signal.BUY = Signal.HOLD) = False := by simp
  simp only [_combine_signals, List.filter_cons, List.filter_nil, hBS, hBH,
    if_false, if_true, List.length_cons, List.length_nil, List.map_cons,
    List.map_nil, List.sum_cons, List.sum_nil]
  norm_num

/-- C7 (amended): the combiner's overall confidence is always at most 100,
and it lies in [0, 100] whenever every input indicator confidence is
nonnegative — in particular even when individual confidences exceed
100. -/
theorem combine_signals_confidence_bounds (l : List IndicatorResult) :
    (_combine_signals l).2.1 ≤ 100 ∧
      ((∀ i ∈ l, 0 ≤ i.confidence) → 0 ≤ (_combine_signals l).2.1) := by
  have hsum : (∀ i ∈ l, 0 ≤ i.confidence) →
      0 ≤ ((l.filter (fun i => decide (¬ i.signal = Signal.HOLD))).map
        IndicatorResult.confidence).sum := by
    intro hconf
    apply List.sum_nonneg
    intro x hx
    obtain ⟨i, hi, rfl⟩ := List.mem_map.mp hx
    exact hconf i (List.mem_of_mem_filter hi)
  simp only [_combine_signals]
  split_ifs with h0 h1 h2
  · exact ⟨by norm_num, fun _ => le_refl 0⟩
  · refine ⟨min_le_right _ _, fun hconf => le_min (mul_nonneg ?_ ?_) (by norm_num)⟩
    · exact div_nonneg (hsum hconf) (by positivity)
    · positivity
  · refine ⟨min_le_right _ _, fun hconf => le_min (mul_nonneg ?_ ?_) (by norm_num)⟩
    · exact div_nonneg (hsum hconf) (by positivity)
    · positivity
  · refine ⟨min_le_right _ _, fun hconf => le_min (mul_nonneg ?_ ?_) (by norm_num)⟩
    · exact div_nonneg (hsum hconf) (by positivity)
    · norm_num

/-- Witness for C7 (amended) on a single BUY indicator whose confidence
500 exceeds 100. -/
theorem combine_signals_confidence_bounds_witness :
    (_combine_signals
        [{ name := "EMA", signal := Signal.BUY, value := 0,
           confidence := 500 }]).2.1 ≤ 100 ∧
      0 ≤ (_combine_signals
        [{ name := "EMA", signal := Signal.BUY, value := 0,
           confidence := 500 }]).2.1 :=
  ⟨(combine_signals_confidence_bounds _).1,
   (combine_signals_confidence_bounds _).2 (by norm_num)⟩

/-- Among any list of indicator results, the BUY count plus the SELL count
equals the number of non-HOLD indicators (the signal type is the closed
variant BUY, SELL, HOLD). -/
theorem buy_add_sell_eq_nonHold (l : List IndicatorResult) :
    (l.filter (fun i => decide (i.signal = Signal.BUY))).length +
      (l.filter (fun i => decide (i.signal = Signal.SELL))).length =
      (l.filter (fun i => decide (¬ i.signal = Signal.HOLD))).length := by
  induction l with
  | nil => rfl
  | cons a t ih =>
    cases h : a.signal <;> simp [List.filter_cons, h] at ih ⊢ <;> omega

/-- C1: the combiner implements exactly the algorithm the specification
states: with b BUY votes and s SELL votes among N indicators, zero BUY and
zero SELL votes give HOLD, confidence 0.0 and the no-clear-signals
recommendation; otherwise the result is BUY with strength b/N when b > s,
SELL with strength s/N when s > b, HOLD with strength 0.5 when b = s, and
the confidence is the mean confidence over the non-HOLD indicators times
the strength, capped at 100. -/
theorem combine_signals_eq_spec (l : List IndicatorResult) :
    _combine_signals l = combineSignalsSpec l := by
  have key := buy_add_sell_eq_nonHold l
  simp only [_combine_signals, combineSignalsSpec]
  split_ifs <;> first
    | rfl
    | omega
    | rw [key]

/-- C2: whenever the close-price list is long enough for MACD evaluation,
the MACD signal is BUY iff the last main-line value exceeds the last
signal-line value and the last histogram value is positive; SELL iff the
main line is below the signal line and the histogram is negative; and HOLD
in exactly the remaining cases (in particular, main above signal with
histogram not positive yields HOLD, not BUY). -/
theorem calculate_macd_signal_iff (cfg : Config) (xs : List ℚ)
    (h : cfg.macd_slow + cfg.macd_signal ≤ xs.length) :
    ((calculate_macd cfg xs).signal = Signal.BUY ↔
      macdSignalLast cfg xs < macdLast cfg xs ∧ 0 < macdHistLast cfg xs) ∧
    ((calculate_macd cfg xs).signal = Signal.SELL ↔
      macdLast cfg xs < macdSignalLast cfg xs ∧ macdHistLast cfg xs < 0) ∧
    ((calculate_macd cfg xs).signal = Signal.HOLD ↔
      ¬(macdSignalLast cfg xs < macdLast cfg xs ∧ 0 < macdHistLast cfg xs) ∧
      ¬(macdLast cfg xs < macdSignalLast cfg xs ∧ macdHistLast cfg xs < 0)) := by
  have h' : ¬ xs.length < cfg.macd_slow + cfg.macd_signal := not_lt.mpr h
  simp only [calculate_macd, if_neg h']
  split_ifs with h1 h2
  · exact ⟨⟨fun _ => h1, fun _ => rfl⟩,
      ⟨False.elim, fun hc => absurd hc.2 (lt_asymm h1.2)⟩,
      ⟨False.elim, fun hn => absurd h1 hn.1⟩⟩
  · exact ⟨⟨False.elim, fun hc => absurd hc h1⟩,
      ⟨fun _ => h2, fun _ => rfl⟩,
      ⟨False.elim, fun hn => absurd h2 hn.2⟩⟩
  · exact ⟨⟨False.elim, fun hc => absurd hc h1⟩,
      ⟨False.elim, fun hc => absurd hc h2⟩,
      ⟨fun _ => ⟨h1, h2⟩, fun _ => rfl⟩⟩

/-- Witness for C2 on a 35-point constant price series at the default
configuration. -/
theorem calculate_macd_signal_iff_witness :
    defaultConfig.macd_slow + defaultConfig.macd_signal ≤
        (List.replicate 35 (1 : ℚ)).length ∧
      ((calculate_macd defaultConfig (List.replicate 35 1)).signal = Signal.HOLD ↔
        ¬(macdSignalLast defaultConfig (List.replicate 35 1) <
              macdLast defaultConfig (List.replicate 35 1) ∧
            0 < macdHistLast defaultConfig (List.replicate 35 1)) ∧
        ¬(macdLast defaultConfig (List.replicate 35 1) <
              macdSignalLast defaultConfig (List.replicate 35 1) ∧
            macdHistLast defaultConfig (List.replicate 35 1) < 0)) :=
  ⟨by decide,
   (calculate_macd_signal_iff defaultConfig (List.replicate 35 1) (by decide)).2.2⟩

/-- The per-label document counts sum to the batch size (the label type is
the closed variant positive, negative, neutral). -/
theorem label_counts_sum (l : List SentimentResult) :
    (l.filter (fun r => decide (r.sentiment = SentLabel.positive))).length +
      (l.filter (fun r => decide (r.sentiment = SentLabel.negative))).length +
      (l.filter (fun r => decide (r.sentiment = SentLabel.neutral))).length =
      l.length := by
  induction l with
  | nil => rfl
  | cons a t ih =>
    cases h : a.sentiment <;> simp [List.filter_cons, h] at ih ⊢ <;> omega

/-- C5: on any non-empty batch whose labels lie in the closed label set,
each of the three ratios equals the count of documents carrying that label
divided by the batch size, and the three ratios sum to exactly 1. -/
theorem sentiment_ratios (l : List SentimentResult) (h : l ≠ []) :
    (calculate_sentiment_scores l).positive_ratio =
        ((l.filter (fun r => decide (r.sentiment = SentLabel.positive))).length : ℚ) /
          (l.length : ℚ) ∧
    (calculate_sentiment_scores l).negative_ratio =
        ((l.filter (fun r => decide (r.sentiment = SentLabel.negative))).length : ℚ) /
          (l.length : ℚ) ∧
    (calculate_sentiment_scores l).neutral_ratio =
        ((l.filter (fun r => decide (r.sentiment = SentLabel.neutral))).length : ℚ) /
          (l.length : ℚ) ∧
    (calculate_sentiment_scores l).positive_ratio +
        (calculate_sentiment_scores l).negative_ratio +
        (calculate_sentiment_scores l).neutral_ratio = 1 := by
  simp only [calculate_sentiment_scores, if_neg h]
  refine ⟨by trivial, by trivial, by trivial, ?_⟩
  have hc := label_counts_sum l
  have hlen : (l.length : ℚ) ≠ 0 := by
    have : l.length ≠ 0 := by
      simpa [List.length_eq_zero] using h
    exact_mod_cast this
  rw [div_add_div_same, div_add_div_same, div_eq_one_iff_eq hlen]
  exact_mod_cast hc

/-- Witness for C5 on a singleton positive-label batch. -/
theorem sentiment_ratios_witness :
    (⟨SentLabel.positive, 1, 1, 0, 0, 1⟩ :: [] : List SentimentResult) ≠ [] ∧
      (calculate_sentiment_scores [⟨SentLabel.positive, 1, 1, 0, 0, 1⟩]).positive_ratio +
          (calculate_sentiment_scores [⟨SentLabel.positive, 1, 1, 0, 0, 1⟩]).negative_ratio +
          (calculate_sentiment_scores [⟨SentLabel.positive, 1, 1, 0, 0, 1⟩]).neutral_ratio = 1 :=
  ⟨by simp, (sentiment_ratios [⟨SentLabel.positive, 1, 1, 0, 0, 1⟩] (by simp)).2.2.2⟩

/-- C6: sentiment aggregation is order-independent: permuted document
batches produce identical aggregates in all ten output fields. -/
theorem sentiment_scores_perm_invariant (l l' : List SentimentResult)
    (h : l.Perm l') :
    calculate_sentiment_scores l = calculate_sentiment_scores l' := by
  rcases eq_or_ne l [] with rfl | hl
  · rw [List.Perm.eq_nil h.symm]
  · have hl' : l' ≠ [] := fun e => hl (List.Perm.eq_nil (e ▸ h))
    have hmean : ∀ f : SentimentResult → ℚ, npMean (l.map f) = npMean (l'.map f) := by
      intro f
      unfold npMean
      rw [List.Perm.sum_eq (h.map f), List.Perm.length_eq (h.map f)]
    have hfil : ∀ p : SentimentResult → Bool,
        (l.filter p).length = (l'.filter p).length := fun p =>
      List.Perm.length_eq (h.filter p)
    have hvar : npVar (l.map SentimentResult.weighted_sentiment) =
        npVar (l'.map SentimentResult.weighted_sentiment) := by
      unfold npVar
      rw [hmean SentimentResult.weighted_sentiment,
        List.Perm.sum_eq ((h.map SentimentResult.weighted_sentiment).map _),
        List.Perm.length_eq (h.map SentimentResult.weighted_sentiment)]
    simp only [calculate_sentiment_scores, if_neg hl, if_neg hl']
    refine SentimentAggregate.ext ?_ ?_ ?_ ?_ ?_ ?_ ?_ ?_ ?_ ?_
    · exact hmean signedConfidence
    · exact hmean SentimentResult.weighted_sentiment
    · simp only [hfil, List.Perm.length_eq h]
    · simp only [hfil, List.Perm.length_eq h]
    · simp only [hfil, List.Perm.length_eq h]
    · exact hmean SentimentResult.confidence
    · unfold npStd
      rw [hvar]
    · exact hmean SentimentResult.positive_score
    · exact hmean SentimentResult.negative_score
    · exact hmean SentimentResult.neutral_score

/-- Witness for C6 on a two-document batch and its transposition. -/
theorem sentiment_scores_perm_invariant_witness :
    ([⟨SentLabel.positive, 1, 1, 0, 0, 1⟩, ⟨SentLabel.negative, 2, 0, 2, 0, -2⟩] :
        List SentimentResult).Perm
        [⟨SentLabel.negative, 2, 0, 2, 0, -2⟩, ⟨SentLabel.positive, 1, 1, 0, 0, 1⟩] ∧
      calculate_sentiment_scores
          [⟨SentLabel.positive, 1, 1, 0, 0, 1⟩, ⟨SentLabel.negative, 2, 0, 2, 0, -2⟩] =
        calculate_sentiment_scores
          [⟨SentLabel.negative, 2, 0, 2, 0, -2⟩, ⟨SentLabel.positive, 1, 1, 0, 0, 1⟩] :=
  ⟨List.Perm.swap _ _ _,
   sentiment_scores_perm_invariant _ _ (List.Perm.swap _ _ _)⟩

/-- getD of a mapped list at an in-range index is the function applied to
the getD of the underlying list. -/
theorem getD_map_of_lt {α : Type} (g : ℚ → α) (l : List ℚ) (i : ℕ)
    (hi : i < l.length) (d : α) :
    (l.map g).getD i d = g (l.getD i 0) := by
  rw [List.getD_eq_getElem?_getD, List.getD_eq_getElem?_getD,
    List.getElem?_map, List.getElem?_eq_getElem hi]
  rfl

/-- C8 counterexample: a one-row batch whose average_confidence is -1 has
batch maximum -1, which is nonzero, yet the code sets
confidence_normalized to 0.0 rather than to (-1) / (-1) = 1: the Python
guard is max() > 0, not max() different from 0. -/
theorem clean_downstream_negative_max :
    colMax (fillCol 1 (some [(-1 : ℚ)])) ≠ 0 ∧
      (clean_data_for_downstream
          { nrows := 1, average_confidence := some [(-1 : ℚ)] }).confidence_normalized.getD 0 0 ≠
        (-1 : ℚ) / colMax (fillCol 1 (some [(-1 : ℚ)])) := by
  norm_num [clean_data_for_downstream, colMax, fillCol]

/-- C8 (amended): for every batch, after synthesizing any missing required
column as the all-zero column, each row's sentiment_signal is 1 when its
weighted_sentiment_avg exceeds 0.1, -1 when it is below -0.1 and 0
otherwise; and each row's confidence_normalized is its average_confidence
divided by the batch maximum average_confidence when that maximum is
positive, and 0.0 otherwise (in particular when the maximum is 0). -/
theorem clean_downstream_rows (f : SemFrame) (i : ℕ) (hi : i < f.nrows)
    (hw : ∀ c ∈ f.weighted_sentiment_avg, c.length = f.nrows)
    (hc : ∀ c ∈ f.average_confidence, c.length = f.nrows) :
    (clean_data_for_downstream f).sentiment_signal.getD i 0 =
        (if (1 : ℚ) / 10 < (fillCol f.nrows f.weighted_sentiment_avg).getD i 0 then 1
         else if (fillCol f.nrows f.weighted_sentiment_avg).getD i 0 < -(1 / 10) then -1
         else 0) ∧
      (clean_data_for_downstream f).confidence_normalized.getD i 0 =
        (if 0 < colMax (fillCol f.nrows f.average_confidence) then
          (fillCol f.nrows f.average_confidence).getD i 0 /
            colMax (fillCol f.nrows f.average_confidence)
         else 0) := by
  have hwlen : (fillCol f.nrows f.weighted_sentiment_avg).length = f.nrows := by
    cases hfw : f.weighted_sentiment_avg with
    | none => simp [fillCol]
    | some c => simp [fillCol, hw c (by simp [hfw, Option.mem_def])]
  have hclen : (fillCol f.nrows f.average_confidence).length = f.nrows := by
    cases hfc : f.average_confidence with
    | none => simp [fillCol]
    | some c => simp [fillCol, hc c (by simp [hfc, Option.mem_def])]
  constructor
  · simp only [clean_data_for_downstream]
    rw [getD_map_of_lt _ _ _ (by rw [hwlen]; exact hi)]
  · simp only [clean_data_for_downstream]
    split_ifs with hm
    · rw [getD_map_of_lt _ _ _ (by rw [hclen]; exact hi)]
    · rw [List.getD_eq_getElem?_getD, List.getElem?_replicate]
      simp [hi]

/-- Witness for C8 (amended) on the batch of the spec's worked example:
weighted averages [0.15, -0.15] and confidences [0.8, 0.4], row 0. -/
theorem clean_downstream_rows_witness :
    (0 : ℕ) <
        (SemFrame.mk 2 none (some [(15 : ℚ) / 100, -(15 / 100)]) none none
            (some [(8 : ℚ) / 10, 4 / 10])).nrows ∧
      ((clean_data_for_downstream
            (SemFrame.mk 2 none (some [(15 : ℚ) / 100, -(15 / 100)]) none none
              (some [(8 : ℚ) / 10, 4 / 10]))).sentiment_signal.getD 0 0 =
          (if (1 : ℚ) / 10 <
              (fillCol 2 (some [(15 : ℚ) / 100, -(15 / 100)])).getD 0 0 then 1
           else if (fillCol 2 (some [(15 : ℚ) / 100, -(15 / 100)])).getD 0 0 <
              -(1 / 10) then -1
           else 0) ∧
        (clean_data_for_downstream
            (SemFrame.mk 2 none (some [(15 : ℚ) / 100, -(15 / 100)]) none none
              (some [(8 : ℚ) / 10, 4 / 10]))).confidence_normalized.getD 0 0 =
          (if 0 < colMax (fillCol 2 (some [(8 : ℚ) / 10, 4 / 10])) then
            (fillCol 2 (some [(8 : ℚ) / 10, 4 / 10])).getD 0 0 /
              colMax (fillCol 2 (some [(8 : ℚ) / 10, 4 / 10]))
           else 0)) :=
  ⟨by norm_num,
   clean_downstream_rows
     (SemFrame.mk 2 none (some [(15 : ℚ) / 100, -(15 / 100)]) none none
       (some [(8 : ℚ) / 10, 4 / 10])) 0 (by norm_num)
     (by intro c hmem; simp [Option.mem_def] at hmem; subst hmem; simp)
     (by intro c hmem; simp [Option.mem_def] at hmem; subst hmem; simp)⟩

/-- Exponential smoothing with a factor in (0, 1] keeps a positive state
positive along a list of positive inputs. -/
theorem foldl_emaStep_pos (k : ℚ) (hk0 : 0 < k) (hk1 : k ≤ 1) :
    ∀ l : List ℚ, (∀ x ∈ l, 0 < x) → ∀ e : ℚ, 0 < e →
      0 < l.foldl (emaStep k) e := by
  intro l
  induction l with
  | nil => intro _ e he; simpa using he
  | cons a t ih =>
    intro hl e he
    simp only [List.foldl_cons]
    refine ih (fun x hx => hl x (List.mem_cons_of_mem _ hx)) _ ?_
    have ha := hl a (List.mem_cons_self a t)
    have hrw : emaStep k e a = (1 - k) * e + k * a := by unfold emaStep; ring
    rw [hrw]
    have h1 : 0 ≤ (1 - k) * e := mul_nonneg (by linarith) he.le
    have h2 : 0 < k * a := mul_pos hk0 ha
    linarith

/-- The final TA-Lib EMA value over a list of positive prices is positive
whenever the period is at least 1 and the list is long enough. -/
theorem emaLastVal_pos (p : ℕ) (xs : List ℚ) (hp : 1 ≤ p) (hlen : p ≤ xs.length)
    (hpos : ∀ x ∈ xs, 0 < x) : 0 < emaLastVal p xs := by
  have hp0 : 0 < p := hp
  unfold emaLastVal
  apply foldl_emaStep_pos
  · unfold emaK; positivity
  · unfold emaK
    rw [div_le_one (by positivity)]
    have hcast : (1 : ℚ) ≤ (p : ℚ) := by exact_mod_cast hp
    linarith
  · intro x hx; exact hpos x (List.mem_of_mem_drop hx)
  · unfold npMean
    have htake : (xs.take p).length = p := by
      rw [List.length_take]; omega
    rw [htake]
    apply div_pos
    · apply List.sum_pos
      · intro x hx; exact hpos x (List.mem_of_mem_take hx)
      · intro hnil
        rw [hnil] at htake
        simp at htake
        omega
    · exact_mod_cast hp0

/-- Confidence bounds for calculate_ema on a positive price series: within
[0, 100], and 0 exactly on HOLD. -/
theorem ema_conf_bounds (cfg : Config) (xs : List ℚ) (hp : 1 ≤ cfg.ema_period)
    (hpos : ∀ x ∈ xs, 0 < x) :
    0 ≤ (calculate_ema cfg xs).confidence ∧
      (calculate_ema cfg xs).confidence ≤ 100 ∧
      ((calculate_ema cfg xs).signal = Signal.HOLD →
        (calculate_ema cfg xs).confidence = 0) := by
  simp only [calculate_ema]
  split_ifs with h1 h2 h3
  · exact ⟨le_refl 0, by norm_num, fun _ => rfl⟩
  · have he : 0 < emaLastVal cfg.ema_period xs :=
      emaLastVal_pos _ _ hp (not_lt.mp h1) hpos
    refine ⟨le_min ?_ (by norm_num), min_le_right _ _, fun hco => by simp at hco⟩
    have hnum : 0 ≤ xs.getLastD 0 - emaLastVal cfg.ema_period xs := by linarith
    exact mul_nonneg (div_nonneg hnum he.le) (by norm_num)
  · have he : 0 < emaLastVal cfg.ema_period xs :=
      emaLastVal_pos _ _ hp (not_lt.mp h1) hpos
    refine ⟨le_min ?_ (by norm_num), min_le_right _ _, fun hco => by simp at hco⟩
    have hnum : 0 ≤ emaLastVal cfg.ema_period xs - xs.getLastD 0 := by linarith
    exact mul_nonneg (div_nonneg hnum he.le) (by norm_num)
  · exact ⟨le_refl 0, by norm_num, fun _ => rfl⟩

/-- Confidence bounds for calculate_macd: within [0, 100], and 0 exactly on
HOLD (no positivity assumption needed). -/
theorem macd_conf_bounds (cfg : Config) (xs : List ℚ) :
    0 ≤ (calculate_macd cfg xs).confidence ∧
      (calculate_macd cfg xs).confidence ≤ 100 ∧
      ((calculate_macd cfg xs).signal = Signal.HOLD →
        (calculate_macd cfg xs).confidence = 0) := by
  simp only [calculate_macd]
  split_ifs with h1 h2 h3
  · exact ⟨le_refl 0, by norm_num, fun _ => rfl⟩
  · exact ⟨le_min (by positivity) (by norm_num), min_le_right _ _,
      fun hco => by simp at hco⟩
  · exact ⟨le_min (by positivity) (by norm_num), min_le_right _ _,
      fun hco => by simp at hco⟩
  · exact ⟨le_refl 0, by norm_num, fun _ => rfl⟩

/-- Confidence bounds for calculate_rsi under the threshold sanity
conditions satisfied by the defaults (oversold positive, overbought below
100): within [0, 100], and 0 exactly on HOLD. -/
theorem rsi_conf_bounds (cfg : Config) (xs : List ℚ) (hos : 0 < cfg.rsi_oversold)
    (hob : cfg.rsi_overbought < 100) :
    0 ≤ (calculate_rsi cfg xs).confidence ∧
      (calculate_rsi cfg xs).confidence ≤ 100 ∧
      ((calculate_rsi cfg xs).signal = Signal.HOLD →
        (calculate_rsi cfg xs).confidence = 0) := by
  simp only [calculate_rsi]
  split_ifs with h1 h2 h3
  · exact ⟨le_refl 0, by norm_num, fun _ => rfl⟩
  · refine ⟨le_min ?_ (by norm_num), min_le_right _ _, fun hco => by simp at hco⟩
    have hnum : 0 ≤ cfg.rsi_oversold - rsiLast cfg.rsi_period xs := by linarith
    exact mul_nonneg (div_nonneg hnum hos.le) (by norm_num)
  · refine ⟨le_min ?_ (by norm_num), min_le_right _ _, fun hco => by simp at hco⟩
    have hden : (0 : ℚ) ≤ 100 - cfg.rsi_overbought := by linarith
    have hnum : 0 ≤ rsiLast cfg.rsi_period xs - cfg.rsi_overbought := by linarith
    exact mul_nonneg (div_nonneg hnum hden) (by norm_num)
  · exact ⟨le_min (le_refl 0) (by norm_num), min_le_right _ _,
      fun _ => min_eq_left (by norm_num)⟩

/-- C10: at the default configuration, on any list of strictly positive
close prices, each of the three indicator results carries a confidence in
[0, 100], and whenever its signal is HOLD the confidence is exactly 0. -/
theorem indicator_result_invariants (xs : List ℚ) (hpos : ∀ x ∈ xs, 0 < x) :
    (0 ≤ (calculate_ema defaultConfig xs).confidence ∧
      (calculate_ema defaultConfig xs).confidence ≤ 100 ∧
      ((calculate_ema defaultConfig xs).signal = Signal.HOLD →
        (calculate_ema defaultConfig xs).confidence = 0)) ∧
    (0 ≤ (calculate_macd defaultConfig xs).confidence ∧
      (calculate_macd defaultConfig xs).confidence ≤ 100 ∧
      ((calculate_macd defaultConfig xs).signal = Signal.HOLD →
        (calculate_macd defaultConfig xs).confidence = 0)) ∧
    (0 ≤ (calculate_rsi defaultConfig xs).confidence ∧
      (calculate_rsi defaultConfig xs).confidence ≤ 100 ∧
      ((calculate_rsi defaultConfig xs).signal = Signal.HOLD →
        (calculate_rsi defaultConfig xs).confidence = 0)) :=
  ⟨ema_conf_bounds defaultConfig xs (by norm_num [defaultConfig]) hpos,
   macd_conf_bounds defaultConfig xs,
   rsi_conf_bounds defaultConfig xs (by norm_num [defaultConfig])
     (by norm_num [defaultConfig])⟩

/-- Witness for C10 on the positive two-point price list [1, 2]. -/
theorem indicator_result_invariants_witness :
    (∀ x ∈ [(1 : ℚ), 2], 0 < x) ∧
      0 ≤ (calculate_ema defaultConfig [1, 2]).confidence ∧
      0 ≤ (calculate_rsi defaultConfig [1, 2]).confidence :=
  ⟨by norm_num,
   ((indicator_result_invariants [1, 2] (by norm_num)).1).1,
   ((indicator_result_invariants [1, 2] (by norm_num)).2.2).1⟩

end FinSaaS
